import Mathlib

/-!
Verification development for the repository's single source file,
`src/c_src/helper_pbil.h`: a C header declaring five function prototypes
for a Population-Based Incremental Learning (PBIL) helper.

The header is embedded at two levels:
* `helperPbilLines` — the exact rows of text of the file, in order.  The
  file's final row (`"#endif "`) carries no terminating newline, so the
  file contains 22 newline characters (22 lines in the POSIX / `wc -l`
  sense) spread over 23 rows of text.
* a structured model — C types (`CType`), parameters (`CParam`) and
  function declarations (`CFunDecl`), one definition per declared
  function, keeping the source names.  `renderDecl` prints a structured
  declaration back to C concrete syntax, and the development proves that
  the rendered declarations are exactly the prototype rows of
  `helperPbilLines`, tying the two levels together.
A small model of the C preprocessor (`PPLine`, `ppRun`, `processCopies`)
captures the include-guard behaviour of the header.
-/

/-- The rows of text of `src/c_src/helper_pbil.h`, verbatim and in order.
The last row has no terminating newline in the file. -/
def helperPbilLines : List String :=
  [ "#ifndef HELPER_PBIL_H"
  , "#define HELPER_PBIL_H"
  , ""
  , "#include \"datatypes.h\""
  , ""
  , "// Function declarations for PBIL helper functions"
  , ""
  , "// Generate population from probability vector"
  , "int** generate_population(int** current_population, double* prob_vector, int pop_size, int length);"
  , ""
  , "// Update probability vector based on best and worst individuals"
  , "double* update_prob_vector(double* prob_vector, int length, int* best_vector, int* worst_vector, double lr, double negative_lr);"
  , ""
  , "// Find best individual in population"
  , "int* findBest(int** current_population, int pop_size, int length, problem* prob);"
  , ""
  , "// Find worst individual in population"
  , "int* findWorst(int** current_population, int pop_size, int length, int max_fitness, problem* prob);"
  , ""
  , "// Mutate probability vector"
  , "double* mutate(double* prob_vector, double mut_probability, double mut_shift);"
  , ""
  , "#endif " ]

/-- The full text of `src/c_src/helper_pbil.h` (no newline after the last
row, matching the file on disk). -/
def helperPbilText : String :=
  String.intercalate ("\n") helperPbilLines

/-- The paths of all source files supplied with the repository.  The
repository's supplied material consists of this one header file. -/
def suppliedSourceFiles : List String :=
  ["c_src/helper_pbil.h"]

/-- C types appearing in the header: `int`, `double`, the (undefined,
opaque) `problem`, and pointer types over these. -/
inductive CType where
  | int : CType
  | double : CType
  | problem : CType
  | ptr : CType → CType
deriving DecidableEq

/-- A formal parameter of a C function declaration: its name and type. -/
structure CParam where
  name : String
  type : CType
deriving DecidableEq

/-- A C function prototype: return type, function name, parameter list.
The header contains prototypes only, so no body is modelled. -/
structure CFunDecl where
  ret : CType
  name : String
  params : List CParam
deriving DecidableEq

/-- `generate_population` as declared at line 9 of the header. -/
def generate_population : CFunDecl :=
  ⟨CType.ptr (CType.ptr CType.int), "generate_population",
    [ ⟨"current_population", CType.ptr (CType.ptr CType.int)⟩
    , ⟨"prob_vector", CType.ptr CType.double⟩
    , ⟨"pop_size", CType.int⟩
    , ⟨"length", CType.int⟩ ]⟩

/-- `update_prob_vector` as declared at line 12 of the header. -/
def update_prob_vector : CFunDecl :=
  ⟨CType.ptr CType.double, "update_prob_vector",
    [ ⟨"prob_vector", CType.ptr CType.double⟩
    , ⟨"length", CType.int⟩
    , ⟨"best_vector", CType.ptr CType.int⟩
    , ⟨"worst_vector", CType.ptr CType.int⟩
    , ⟨"lr", CType.double⟩
    , ⟨"negative_lr", CType.double⟩ ]⟩

/-- `findBest` as declared at line 15 of the header. -/
def findBest : CFunDecl :=
  ⟨CType.ptr CType.int, "findBest",
    [ ⟨"current_population", CType.ptr (CType.ptr CType.int)⟩
    , ⟨"pop_size", CType.int⟩
    , ⟨"length", CType.int⟩
    , ⟨"prob", CType.ptr CType.problem⟩ ]⟩

/-- `findWorst` as declared at line 18 of the header. -/
def findWorst : CFunDecl :=
  ⟨CType.ptr CType.int, "findWorst",
    [ ⟨"current_population", CType.ptr (CType.ptr CType.int)⟩
    , ⟨"pop_size", CType.int⟩
    , ⟨"length", CType.int⟩
    , ⟨"max_fitness", CType.int⟩
    , ⟨"prob", CType.ptr CType.problem⟩ ]⟩

/-- `mutate` as declared at line 21 of the header. -/
def mutate : CFunDecl :=
  ⟨CType.ptr CType.double, "mutate",
    [ ⟨"prob_vector", CType.ptr CType.double⟩
    , ⟨"mut_probability", CType.double⟩
    , ⟨"mut_shift", CType.double⟩ ]⟩

/-- All declarations of the header, in source order. -/
def helperPbilDecls : List CFunDecl :=
  [generate_population, update_prob_vector, findBest, findWorst, mutate]

/-- Print a `CType` in C concrete syntax (`int**`, `double*`, ...). -/
def renderCType : CType → String
  | CType.int => "int"
  | CType.double => "double"
  | CType.problem => "problem"
  | CType.ptr t => renderCType t ++ "*"

/-- Print a formal parameter in C concrete syntax (`int pop_size`). -/
def renderParam (p : CParam) : String :=
  renderCType p.type ++ " " ++ p.name

/-- Print a prototype in C concrete syntax, exactly as the header writes
it (return type, name, comma-separated parameters, trailing `;`). -/
def renderDecl (d : CFunDecl) : String :=
  renderCType d.ret ++ " " ++ d.name ++ "(" ++
    String.intercalate (", ") (d.params.map renderParam) ++ ");"

/-- Substring search on lists of characters. -/
def lcHasSub : List Char → List Char → Bool
  | [], pat => pat.isEmpty
  | c :: rest, pat => pat.isPrefixOf (c :: rest) || lcHasSub rest pat

/-- `strHasSub s pat` holds when `pat` occurs in `s` as a contiguous
substring. -/
def strHasSub (s pat : String) : Bool :=
  lcHasSub s.toList pat.toList

/-- `strStarts s pre` holds when `s` begins with `pre`. -/
def strStarts (s pre : String) : Bool :=
  pre.toList.isPrefixOf s.toList

/-- `strEnds s suf` holds when `s` ends with `suf`. -/
def strEnds (s suf : String) : Bool :=
  suf.toList.isSuffixOf s.toList

/-- An empty row of the header. -/
def isBlankLine (s : String) : Bool :=
  s.toList.isEmpty

/-- A `//` line comment row. -/
def isCommentLine (s : String) : Bool :=
  strStarts s ("//")

/-- A preprocessor-directive row (`#ifndef`, `#define`, `#include`,
`#endif`). -/
def isDirectiveLine (s : String) : Bool :=
  strStarts s ("#")

/-- A function-prototype row: in this header exactly the rows ending in
a closing parenthesis followed by a semicolon. -/
def isPrototypeLine (s : String) : Bool :=
  strEnds s (");")

/-- `true` when the row contains no curly brace (character codes 123 and
125), hence introduces no function body or aggregate definition. -/
def noBraces (s : String) : Bool :=
  s.toList.all (fun c => c.toNat != 123 && c.toNat != 125)

/-- The number of newline characters of a string: the number of its
newline-terminated lines, as counted by `wc -l`. -/
def countNewlines (s : String) : Nat :=
  s.toList.count '\n'

/-- The return type and all parameter types of a declaration, in order. -/
def declTypes (d : CFunDecl) : List CType :=
  d.ret :: d.params.map CParam.type

/-- Every type occurring in the declared interface of the header. -/
def interfaceTypes : List CType :=
  (helperPbilDecls.map declTypes).flatten

/-- Scalar (non-pointer, non-aggregate) C types of the interface. -/
def isScalar : CType → Bool
  | CType.int => true
  | CType.double => true
  | _ => false

/-- One row of a header, as seen by the C preprocessor: the guard
directives, an `#include`, or an ordinary text row (code, comment or
blank). -/
inductive PPLine where
  | ifndefD : String → PPLine
  | defineD : String → PPLine
  | endifD : PPLine
  | includeD : String → PPLine
  | textD : String → PPLine
deriving DecidableEq

/-- Print a preprocessor row back to its concrete text.  (`endifD`
renders with a trailing space because line 23 of the header is
`"#endif "`.) -/
def renderPPLine : PPLine → String
  | PPLine.ifndefD m => "#ifndef " ++ m
  | PPLine.defineD m => "#define " ++ m
  | PPLine.endifD => "#endif "
  | PPLine.includeD f => "#include " ++ f
  | PPLine.textD s => s

/-- `src/c_src/helper_pbil.h` as a list of preprocessor rows.  The five
prototype rows are the renderings of the five structured declarations. -/
def helperPbilPP : List PPLine :=
  [ PPLine.ifndefD ("HELPER_PBIL_H")
  , PPLine.defineD ("HELPER_PBIL_H")
  , PPLine.textD ("")
  , PPLine.includeD ("\"datatypes.h\"")
  , PPLine.textD ("")
  , PPLine.textD ("// Function declarations for PBIL helper functions")
  , PPLine.textD ("")
  , PPLine.textD ("// Generate population from probability vector")
  , PPLine.textD (renderDecl generate_population)
  , PPLine.textD ("")
  , PPLine.textD ("// Update probability vector based on best and worst individuals")
  , PPLine.textD (renderDecl update_prob_vector)
  , PPLine.textD ("")
  , PPLine.textD ("// Find best individual in population")
  , PPLine.textD (renderDecl findBest)
  , PPLine.textD ("")
  , PPLine.textD ("// Find worst individual in population")
  , PPLine.textD (renderDecl findWorst)
  , PPLine.textD ("")
  , PPLine.textD ("// Mutate probability vector")
  , PPLine.textD (renderDecl mutate)
  , PPLine.textD ("")
  , PPLine.endifD ]

/-- One pass of the preprocessor over a list of rows.  `defs` is the set
of macros defined so far, `skip` the nesting depth of conditional groups
currently being skipped (`0` = emitting).  Text rows are emitted when
not skipping; `#ifndef m` with `m` already defined starts skipping until
the matching `#endif`; `#define` records its macro; an `#include` of a
file outside the supplied source expands to nothing here.  Returns the
defined macros and the emitted rows. -/
def ppRun : List PPLine → List String → Nat → List String × List String
  | [], defs, _ => (defs, [])
  | l :: rest, defs, 0 =>
    match l with
    | PPLine.ifndefD m =>
      if m ∈ defs then ppRun rest defs 1 else ppRun rest defs 0
    | PPLine.defineD m => ppRun rest (m :: defs) 0
    | PPLine.endifD => ppRun rest defs 0
    | PPLine.includeD _ => ppRun rest defs 0
    | PPLine.textD s =>
      let r := ppRun rest defs 0
      (r.1, s :: r.2)
  | l :: rest, defs, d + 1 =>
    match l with
    | PPLine.ifndefD _ => ppRun rest defs (d + 2)
    | PPLine.endifD => ppRun rest defs d
    | _ => ppRun rest defs (d + 1)

/-- The rows a translation unit receives from including the header `n`
times in a row, starting from the macro state `defs`. -/
def processCopies : Nat → List String → List String
  | 0, _ => []
  | n + 1, defs =>
    let r := ppRun helperPbilPP defs 0
    r.2 ++ processCopies n r.1

/-- The rows that a translation unit receives from the first inclusion
of the header with no macros defined: all text rows of the header body
(comments, blanks and the five prototypes). -/
def ppBodyRows : List String :=
  (ppRun helperPbilPP [] 0).2

set_option maxRecDepth 100000

/-- The preprocessor model renders back to the exact rows of the file:
the `PPLine` view of the header prints to `helperPbilLines`, row for
row. -/
theorem helperPbilPP_renders_source :
    helperPbilPP.map renderPPLine = helperPbilLines := by
  decide

/-- A first inclusion with no macros defined defines `HELPER_PBIL_H` and
emits the body rows. -/
theorem ppRun_emits_once :
    ppRun helperPbilPP [] 0 = (["HELPER_PBIL_H"], ppBodyRows) := by
  decide

/-- Once `HELPER_PBIL_H` is defined, a pass over the header emits
nothing and leaves the macro state unchanged. -/
theorem ppRun_guarded (defs : List String) (h : "HELPER_PBIL_H" ∈ defs) :
    ppRun helperPbilPP defs 0 = (defs, []) := by
  simp [helperPbilPP, ppRun, h]

/-- Once `HELPER_PBIL_H` is defined, any number of further inclusions of
the header emits nothing. -/
theorem processCopies_guarded (n : Nat) (defs : List String)
    (h : "HELPER_PBIL_H" ∈ defs) : processCopies n defs = [] := by
  induction n with
  | zero => rfl
  | succ k ih => simp [processCopies, ppRun_guarded defs h, ih]

/-- C1: the prototype rows of the header are exactly the renderings of
the five declarations `generate_population`, `update_prob_vector`,
`findBest`, `findWorst`, `mutate`, in this order; so every declaration
in the header is one of these five, and each of the five names is
declared exactly once. -/
theorem c1_five_prototypes :
    helperPbilLines.filter isPrototypeLine = helperPbilDecls.map renderDecl ∧
    helperPbilDecls.map CFunDecl.name =
      ["generate_population", "update_prob_vector", "findBest", "findWorst", "mutate"] ∧
    ((["generate_population", "update_prob_vector", "findBest", "findWorst", "mutate"].all
      (fun s => (helperPbilDecls.map CFunDecl.name).count s == 1)) = true) := by
  decide

/-- C2 counterexample: the claim that no entity type other than `int**`,
`double*` and `problem*` appears at the interface fails, because the
individual type `int*` — a non-scalar type distinct from all three —
appears at the interface (for instance as the `best_vector` parameter of
`update_prob_vector`, and as the return type of `findBest`). -/
theorem c2_individual_type_at_interface :
    CType.ptr CType.int ∈ interfaceTypes ∧
    isScalar (CType.ptr CType.int) = false ∧
    CType.ptr CType.int ∉
      [CType.ptr (CType.ptr CType.int), CType.ptr CType.double,
       CType.ptr CType.problem] ∧
    (update_prob_vector.params.contains ⟨"best_vector", CType.ptr CType.int⟩) = true ∧
    findBest.ret = CType.ptr CType.int := by
  decide

/-- C2 amended: in every declared signature the population parameter is
typed `int**`, the probability vector `double*`, the problem handle
`problem*`, and individuals (`best_vector`, `worst_vector`, and the
results of `findBest`/`findWorst`) are typed `int*`; the only other
types at the interface are the scalars `int` and `double`. -/
theorem c2_interface_types :
    (helperPbilDecls.all (fun d => d.params.all (fun p =>
      (p.name != "current_population" || p.type == CType.ptr (CType.ptr CType.int)) &&
      (p.name != "prob_vector" || p.type == CType.ptr CType.double) &&
      (p.name != "prob" || p.type == CType.ptr CType.problem) &&
      (p.name != "best_vector" || p.type == CType.ptr CType.int) &&
      (p.name != "worst_vector" || p.type == CType.ptr CType.int)))) = true ∧
    findBest.ret = CType.ptr CType.int ∧
    findWorst.ret = CType.ptr CType.int ∧
    (interfaceTypes.all (fun t =>
      [CType.int, CType.double, CType.ptr CType.int,
       CType.ptr (CType.ptr CType.int), CType.ptr CType.double,
       CType.ptr CType.problem].contains t)) = true := by
  decide

/-- C3: `update_prob_vector` takes a best-individual vector and a
worst-individual vector (both `int*`), together with the two distinct
rate parameters `lr` and `negative_lr` (both `double`), and returns
`double*`; its declaration is row 12 of the header. -/
theorem c3_update_prob_vector_signature :
    update_prob_vector.ret = CType.ptr CType.double ∧
    update_prob_vector.params =
      [⟨"prob_vector", CType.ptr CType.double⟩, ⟨"length", CType.int⟩,
       ⟨"best_vector", CType.ptr CType.int⟩, ⟨"worst_vector", CType.ptr CType.int⟩,
       ⟨"lr", CType.double⟩, ⟨"negative_lr", CType.double⟩] ∧
    (update_prob_vector.params.contains ⟨"best_vector", CType.ptr CType.int⟩) = true ∧
    (update_prob_vector.params.contains ⟨"worst_vector", CType.ptr CType.int⟩) = true ∧
    (update_prob_vector.params.contains ⟨"lr", CType.double⟩) = true ∧
    (update_prob_vector.params.contains ⟨"negative_lr", CType.double⟩) = true ∧
    ("lr" : String) ≠ "negative_lr" ∧
    helperPbilLines[11]? = some (renderDecl update_prob_vector) := by
  decide

/-- C4: the supplied source is declaration-only.  Every row of the
header is a blank, a `//` comment, a preprocessor directive, or a
prototype row; no row contains a curly brace (so no function body and no
aggregate definition), a `typedef`, a `struct`, or an `=`; the prototype
rows are the five declarations; and the supplied material is this single
header file. -/
theorem c4_declaration_only :
    (helperPbilLines.all noBraces) = true ∧
    (helperPbilLines.all (fun s =>
      isBlankLine s || isCommentLine s || isDirectiveLine s || isPrototypeLine s)) = true ∧
    (helperPbilLines.all (fun s =>
      !(strHasSub s ("typedef")) && !(strHasSub s ("struct")) &&
      !(strHasSub s ("=")))) = true ∧
    helperPbilLines.filter isPrototypeLine = helperPbilDecls.map renderDecl ∧
    suppliedSourceFiles = ["c_src/helper_pbil.h"] := by
  decide

/-- C5: the type `problem` is referenced in the header (as the `prob`
parameter of type `problem*` in `findBest` and `findWorst`, the only two
rows mentioning it) but no row of the header defines it (no `typedef`,
no `struct`); the header includes `datatypes.h` at row 4, and
`datatypes.h` is not among the supplied source files. -/
theorem c5_problem_undefined :
    (findBest.params.contains ⟨"prob", CType.ptr CType.problem⟩) = true ∧
    (findWorst.params.contains ⟨"prob", CType.ptr CType.problem⟩) = true ∧
    (strHasSub (renderDecl findBest) ("problem*")) = true ∧
    (helperPbilLines.filter (fun s => strHasSub s ("problem"))).length = 2 ∧
    (helperPbilLines.all (fun s =>
      !(strHasSub s ("typedef")) && !(strHasSub s ("struct")))) = true ∧
    helperPbilLines[3]? = some ("#include \"datatypes.h\"") ∧
    suppliedSourceFiles = ["c_src/helper_pbil.h"] ∧
    (suppliedSourceFiles.all (fun f => !(strHasSub f ("datatypes.h")))) = true := by
  decide

/-- C6: no error-reporting convention appears at the interface.  The
declared return types are, in order, `int**`, `double*`, `int*`, `int*`,
`double*`; every one of them is one of the payload types `int**`,
`double*`, `int*` (in particular none is an `int` error code), and no
parameter name mentions an error, status or failure channel. -/
theorem c6_no_error_convention :
    helperPbilDecls.map CFunDecl.ret =
      [CType.ptr (CType.ptr CType.int), CType.ptr CType.double, CType.ptr CType.int,
       CType.ptr CType.int, CType.ptr CType.double] ∧
    (helperPbilDecls.all (fun d =>
      [CType.ptr (CType.ptr CType.int), CType.ptr CType.double,
       CType.ptr CType.int].contains d.ret)) = true ∧
    (helperPbilDecls.all (fun d => d.ret != CType.int)) = true ∧
    (helperPbilDecls.all (fun d => d.params.all (fun p =>
      !(strHasSub p.name ("err")) && !(strHasSub p.name ("status")) &&
      !(strHasSub p.name ("fail"))))) = true := by
  decide

/-- C7: the supplied excerpt is 22 lines long in the standard `wc -l`
sense — its text contains exactly 22 newline characters (the final row
`"#endif "` is not newline-terminated, so the file has 23 rows of text) —
and it contains declarations only: every row is a blank, a comment, a
directive or a prototype, and no row contains a curly brace. -/
theorem c7_file_extent :
    countNewlines helperPbilText = 22 ∧
    helperPbilLines.length = 23 ∧
    helperPbilLines[22]? = some ("#endif ") ∧
    (helperPbilLines.all (fun s =>
      isBlankLine s || isCommentLine s || isDirectiveLine s || isPrototypeLine s)) = true ∧
    (helperPbilLines.all noBraces) = true := by
  decide

/-- C8: `findBest` and `findWorst` both return `int*`, `findWorst` takes
the extra parameter `int max_fitness` that `findBest` does not take, and
removing that one parameter from `findWorst`'s parameter list yields
exactly `findBest`'s parameter list (population, `pop_size`, `length`,
`problem*`); rows 15 and 18 of the header are their declarations. -/
theorem c8_find_asymmetry :
    findBest.ret = CType.ptr CType.int ∧
    findWorst.ret = CType.ptr CType.int ∧
    (findWorst.params.contains ⟨"max_fitness", CType.int⟩) = true ∧
    (findBest.params.contains ⟨"max_fitness", CType.int⟩) = false ∧
    findWorst.params.erase ⟨"max_fitness", CType.int⟩ = findBest.params ∧
    findBest.params =
      [⟨"current_population", CType.ptr (CType.ptr CType.int)⟩, ⟨"pop_size", CType.int⟩,
       ⟨"length", CType.int⟩, ⟨"prob", CType.ptr CType.problem⟩] ∧
    helperPbilLines[14]? = some (renderDecl findBest) ∧
    helperPbilLines[17]? = some (renderDecl findWorst) := by
  decide

/-- C9: `mutate` takes only the probability vector, a mutation
probability and a mutation shift; no parameter of `mutate` is named
`length`, whereas `generate_population` and `update_prob_vector` each
take an `int length` parameter; row 21 of the header is `mutate`'s
declaration. -/
theorem c9_mutate_no_length :
    mutate.params =
      [⟨"prob_vector", CType.ptr CType.double⟩,
       ⟨"mut_probability", CType.double⟩, ⟨"mut_shift", CType.double⟩] ∧
    (mutate.params.all (fun p => p.name != "length")) = true ∧
    (generate_population.params.contains ⟨"length", CType.int⟩) = true ∧
    (update_prob_vector.params.contains ⟨"length", CType.int⟩) = true ∧
    helperPbilLines[20]? = some (renderDecl mutate) := by
  decide

/-- C10: inclusion of the header is idempotent.  Including the header
`n + 1` times (any positive number) in a fresh translation unit yields
exactly the rows of a single inclusion, and each of the five rendered
declarations occurs exactly once among them. -/
theorem c10_include_guard_idempotent (n : Nat) :
    processCopies (n + 1) [] = ppBodyRows ∧
    ((helperPbilDecls.map renderDecl).all
      (fun s => (processCopies (n + 1) []).count s == 1)) = true := by
  have h1 : processCopies (n + 1) [] = ppBodyRows := by
    have h2 : processCopies (n + 1) [] =
        ppBodyRows ++ processCopies n ["HELPER_PBIL_H"] := by
      simp [processCopies, ppRun_emits_once]
    rw [h2, processCopies_guarded n ["HELPER_PBIL_H"] (by simp)]
    simp
  refine ⟨h1, ?_⟩
  simp only [h1]
  decide

/-- Instance of the idempotence theorem at a concrete repetition count:
including the header three times yields the rows of a single inclusion,
with each declaration occurring once. -/
theorem c10_include_guard_idempotent_witness :
    processCopies 3 [] = ppBodyRows ∧
    ((helperPbilDecls.map renderDecl).all
      (fun s => (processCopies 3 []).count s == 1)) = true :=
  c10_include_guard_idempotent 2
